import Mathlib

/-!
Verification of the order-to-freight pipeline of the
protheus-freight-rpa-python repository.

This file is a shallow embedding of the class `ProcessadorPedidos`
(src/core/processador_pedidos.py) together with the configuration constant
`DIAS_ANTECEDENCIA_FRETE` (src/config.py), and proofs of the specification
claims about the three derivations `calcular_total_por_cliente`,
`criar_fila_fretes` and `gerar_resumo_executivo`.

Modelling conventions, justified against the ingestion code
(src/core/leitor_csv.py) that produces every DataFrame the processor sees:

* A validated order row is `Pedido`.  The string columns `C6_NUM` and
  `C6_CLIENTE` are abstracted to numeric identifier codes (`Nat`); the
  linear order on the codes stands for the lexicographic order on the
  original strings, which pandas `groupby(sort=True)` uses when emitting
  groups.  Equality of codes stands for exact (case-sensitive) string
  equality, as in the source.
* `C6_ENTREG` is produced by `pd.to_datetime(.., format="%d/%m/%Y")`, so
  every delivery datetime is a midnight timestamp; dates are modelled as
  integer day numbers.  `datetime.now()` carries a time of day, but the
  processor only ever uses `hoje.date()` and `strftime("%d/%m/%Y")`, both
  functions of the calendar day alone, so the ambient clock reading is also
  modelled as a day number.
* `Qtd` and `Preço` are coerced with `pd.to_numeric`; their floating-point
  arithmetic is modelled with exact rationals (no rounding is applied at
  this stage, spec section 4.1).
* The `datetime.now()` calls inside `criar_fila_fretes` and
  `gerar_resumo_executivo` are modelled by passing the ambient clock
  reading `hoje` to the embedded function as an extra explicit argument:
  the argument denotes the value the system clock happens to have at call
  time.  The Python methods take no such parameter; this matters for
  claim C5.
* `DataFrame.sort_values(col)` is modelled by a stable insertion sort on
  the key column (`sort_values` below); `sort_values(col, ascending=False)`
  follows pandas `nargsort`, which reverses the rows, sorts ascending and
  reverses the result.  pandas' default `kind="quicksort"` guarantees the
  sortedness and permutation facts proved below for every input, and it
  agrees with this stable model on numpy's small-array insertion-sort path
  (at most 16 rows); its tie order on larger inputs is not guaranteed by
  pandas at all, which is what claim C2 is about.
* pandas missing-value results (`NaN` from `.mean()` of an empty column,
  `NaT` from `.min()`/`.max()` of an empty datetime column) are modelled as
  `Option.none`.
* The processor object itself is explicit state: each method is embedded as
  a function from the processor state (and its clock/configuration inputs)
  to the pair of the post-call state and the returned value.  The only
  column ever added to `self.df` after construction is `Total_Item`
  (line 38 of the source), so the DataFrame model carries the five
  validated input columns as `rows` plus that optional column.
-/

/-- One validated order row of the input DataFrame, as produced by
`LeitorCSV.ler_dados`: columns `C6_NUM`, `C6_CLIENTE`, `Qtd`, `Preço`,
`C6_ENTREG`. -/
structure Pedido where
  num : Nat
  cliente : Nat
  qtd : ℚ
  preco : ℚ
  entreg : Int
deriving DecidableEq, Repr

/-- The processor's DataFrame `self.df`: the validated order rows plus the
`Total_Item` column, which is absent at construction time and written by
`calcular_total_por_cliente` (line 38 of the source). -/
structure DataFrame where
  rows : List Pedido
  total_item : Option (List ℚ)
deriving DecidableEq, Repr

/-- State of a `ProcessadorPedidos` instance: just the DataFrame it holds. -/
structure ProcessadorPedidos where
  df : DataFrame
deriving DecidableEq, Repr

/-- `ProcessadorPedidos.__init__`: stores `df.copy()`.  In the value
semantics of the embedding the stored frame is the caller's value; the
`.copy()` is what makes this value semantics accurate for the mutable
Python objects. -/
def ProcessadorPedidos.init (df : DataFrame) : ProcessadorPedidos :=
  { df := df }

/-- Stable insertion of `a` into `l`: `a` goes in front of the first
element whose key is not smaller, so an element inserted from further left
in the original list stays in front of equal keys. -/
def insertByKey [LinearOrder β] (key : α → β) (a : α) : List α → List α
  | [] => [a]
  | b :: l => if key a ≤ key b then a :: b :: l else b :: insertByKey key a l

/-- Model of pandas `DataFrame.sort_values(col)` (single key column,
`ascending=True`): a stable sort by the key.  See the module docstring for
the relation to pandas' default `kind="quicksort"`. -/
def sort_values [LinearOrder β] (key : α → β) : List α → List α
  | [] => []
  | a :: l => insertByKey key a (sort_values key l)

/-- Model of pandas `DataFrame.sort_values(col, ascending=False)`:
`nargsort` reverses the rows, argsorts ascending, and reverses the
resulting indexer. -/
def sort_values_desc [LinearOrder β] (key : α → β) (l : List α) : List α :=
  (sort_values key l.reverse).reverse

theorem insertByKey_perm [LinearOrder β] (key : α → β) (a : α) (l : List α) :
    List.Perm (insertByKey key a l) (a :: l) := by
  induction l with
  | nil => rfl
  | cons b t ih =>
      by_cases h : key a ≤ key b
      · simp [insertByKey, h]
      · simp only [insertByKey, if_neg h]
        exact (ih.cons b).trans (List.Perm.swap a b t)

theorem sort_values_perm [LinearOrder β] (key : α → β) (l : List α) :
    List.Perm (sort_values key l) l := by
  induction l with
  | nil => rfl
  | cons a t ih =>
      exact (insertByKey_perm key a (sort_values key t)).trans (ih.cons a)

theorem sort_values_desc_perm [LinearOrder β] (key : α → β) (l : List α) :
    List.Perm (sort_values_desc key l) l := by
  unfold sort_values_desc
  exact (List.reverse_perm _).trans
    ((sort_values_perm key l.reverse).trans (List.reverse_perm l))

theorem insertByKey_chain' [LinearOrder β] (key : α → β) (a : α) (l : List α)
    (h : List.Chain' (fun x y => key x ≤ key y) l) :
    List.Chain' (fun x y => key x ≤ key y) (insertByKey key a l) := by
  induction l with
  | nil => simp [insertByKey]
  | cons b t ih =>
      by_cases hab : key a ≤ key b
      · simpa [insertByKey, hab] using h
      · have hb : key b ≤ key a := le_of_not_le hab
        have ht : List.Chain' (fun x y => key x ≤ key y) t := h.tail
        have hins := ih ht
        simp only [insertByKey, if_neg hab]
        cases t with
        | nil => simp [insertByKey, hb]
        | cons c u =>
            have hbc : key b ≤ key c := (List.chain'_cons.mp h).1
            by_cases hac : key a ≤ key c
            · simp only [insertByKey, if_pos hac] at hins ⊢
              exact List.chain'_cons.mpr ⟨hb, hins⟩
            · simp only [insertByKey, if_neg hac] at hins ⊢
              exact List.chain'_cons.mpr ⟨hbc, hins⟩

theorem sort_values_chain' [LinearOrder β] (key : α → β) (l : List α) :
    List.Chain' (fun x y => key x ≤ key y) (sort_values key l) := by
  induction l with
  | nil => simp [sort_values]
  | cons a t ih => exact insertByKey_chain' key a _ ih

theorem sort_values_desc_chain' [LinearOrder β] (key : α → β) (l : List α) :
    List.Chain' (fun x y => key y ≤ key x) (sort_values_desc key l) := by
  unfold sort_values_desc
  rw [List.chain'_reverse]
  exact sort_values_chain' key l.reverse

theorem insertByKey_map [LinearOrder β] (key : α → β) (key' : α' → β)
    (f : α → α') (hf : ∀ x, key' (f x) = key x) (a : α) (l : List α) :
    (insertByKey key a l).map f = insertByKey key' (f a) (l.map f) := by
  induction l with
  | nil => rfl
  | cons b t ih =>
      by_cases h : key a ≤ key b
      · simp [insertByKey, h, hf]
      · simp [insertByKey, h, hf, ih]

theorem sort_values_map [LinearOrder β] (key : α → β) (key' : α' → β)
    (f : α → α') (hf : ∀ x, key' (f x) = key x) (l : List α) :
    (sort_values key l).map f = sort_values key' (l.map f) := by
  induction l with
  | nil => rfl
  | cons a t ih =>
      simp only [sort_values, List.map_cons]
      rw [insertByKey_map key key' f hf, ih]

theorem sort_values_length [LinearOrder β] (key : α → β) (l : List α) :
    (sort_values key l).length = l.length :=
  (sort_values_perm key l).length_eq

theorem sort_values_desc_length [LinearOrder β] (key : α → β) (l : List α) :
    (sort_values_desc key l).length = l.length :=
  (sort_values_desc_perm key l).length_eq

theorem mem_sort_values [LinearOrder β] (key : α → β) {l : List α} {x : α} :
    x ∈ sort_values key l ↔ x ∈ l :=
  (sort_values_perm key l).mem_iff

/-- Lead-time configuration constant `DIAS_ANTECEDENCIA_FRETE = 3` from
src/config.py ("Dias antes da data de embarque para agendar frete"). -/
def DIAS_ANTECEDENCIA_FRETE : Int := 3

/-- One row of the aggregated frame returned by
`calcular_total_por_cliente`, after the renaming
`totais_cliente.columns = ['Cliente', 'Num_Pedidos', 'Qtd_Total',
'Total_Valor', 'Primeira_Entreg']`.  `primeira_entreg` is an `Option`
because pandas `min` of an empty group would be `NaT`; groups are never
empty, so it is always `some` in practice. -/
structure TotaisCliente where
  cliente : Nat
  num_pedidos : Nat
  qtd_total : ℚ
  total_valor : ℚ
  primeira_entreg : Option Int
deriving DecidableEq, Repr

/-- The group keys as pandas `groupby('C6_CLIENTE')` emits them: the
distinct customers of the frame, in ascending key order (`groupby`
defaults to `sort=True`, so groups are NOT emitted in first-seen order). -/
def groupKeys (rows : List Pedido) : List Nat :=
  sort_values id ((rows.map (fun p => p.cliente)).dedup)

/-- The aggregate row pandas builds for one group key `k` (lines 41-46 of
the source): the group is the rows whose `C6_CLIENTE` equals `k`, and the
aggregations are count(`C6_NUM`), sum(`Qtd`), sum(`Total_Item`) — i.e. the
sum of `Qtd * Preço` — and min(`C6_ENTREG`). -/
def grupoCliente (rows : List Pedido) (k : Nat) : TotaisCliente :=
  let g := rows.filter (fun p => p.cliente = k)
  { cliente := k
    num_pedidos := g.length
    qtd_total := (g.map (fun p => p.qtd)).sum
    total_valor := (g.map (fun p => p.qtd * p.preco)).sum
    primeira_entreg := (g.map (fun p => p.entreg)).min? }

/-- Embedding of `ProcessadorPedidos.calcular_total_por_cliente`
(lines 27-58 of src/core/processador_pedidos.py):

* line 38 writes the column `Total_Item = Qtd * Preço` onto `self.df`
  (a mutation of the processor state, reflected in the returned state);
* lines 41-46 group by `C6_CLIENTE` and aggregate
  count(`C6_NUM`), sum(`Qtd`), sum(`Total_Item`), min(`C6_ENTREG`);
* line 51 sorts by `Total_Valor` descending.

The pair is (post-call processor state, returned frame). -/
def calcular_total_por_cliente (s : ProcessadorPedidos) :
    ProcessadorPedidos × List TotaisCliente :=
  let rows := s.df.rows
  let df' : DataFrame :=
    { rows := rows, total_item := some (rows.map (fun p => p.qtd * p.preco)) }
  let totais : List TotaisCliente := (groupKeys rows).map (grupoCliente rows)
  (⟨df'⟩, sort_values_desc (fun t => t.total_valor) totais)

/-- One row of the freight queue returned by `criar_fila_fretes`, with the
final column layout `Seq_Frete, C6_NUM, C6_CLIENTE, Qtd, C6_ENTREG,
Data_Agendamento_Frete, Status`. -/
structure FilaFrete where
  seq_frete : Nat
  num : Nat
  cliente : Nat
  qtd : ℚ
  entreg : Int
  data_agendamento : Int
  status : String
deriving DecidableEq, Repr

/-- The pre-sort freight rows (lines 72-81 of the source): the four
selected columns (kept as the whole `Pedido`, whose surplus `preco` field
is simply never read), the computed `Data_Agendamento_Frete =
C6_ENTREG - timedelta(days=dias)`, and the `Status` column, computed from
the ambient clock reading `hoje` (`datetime.now()`, truncated to its
calendar date by `.date()`). -/
def filaBase (rows : List Pedido) (dias : Int) (hoje : Int) :
    List (Pedido × Int × String) :=
  rows.map (fun p =>
    (p, p.entreg - dias,
      if p.entreg - dias ≤ hoje then "URGENTE" else "AGENDADO"))

/-- Final freight row from a 0-based rank and a pre-sort row: the
`Seq_Frete` column inserted by line 88 of the source is the rank plus one
(`range(1, len(fila_fretes) + 1)`). -/
def mkFrete (e : Nat × Pedido × Int × String) : FilaFrete :=
  { seq_frete := e.1 + 1
    num := e.2.1.num
    cliente := e.2.1.cliente
    qtd := e.2.1.qtd
    entreg := e.2.1.entreg
    data_agendamento := e.2.2.1
    status := e.2.2.2 }

/-- Embedding of `ProcessadorPedidos.criar_fila_fretes` (lines 60-97 of
src/core/processador_pedidos.py):

* `dias` is the value of the global `DIAS_ANTECEDENCIA_FRETE` the method
  reads (the method takes no such parameter itself);
* `hoje` is the ambient clock reading `datetime.now()` of line 78 (the
  method takes no such parameter either; only the calendar date of the
  reading is ever used, see the module docstring);
* lines 72-81 build the pre-sort rows (`filaBase`);
* line 84 sorts ascending by `Data_Agendamento_Frete`;
* lines 87-88 reset the index and add `Seq_Frete` (`mkFrete`).

The processor state is returned unchanged: this method only works on a
`.copy()` of the selected columns. -/
def criar_fila_fretes (s : ProcessadorPedidos) (dias : Int) (hoje : Int) :
    ProcessadorPedidos × List FilaFrete :=
  let ordenado := sort_values (fun x => x.2.1) (filaBase s.df.rows dias hoje)
  (s, ordenado.enum.map mkFrete)

/-- Count of urgent freight rows as computed by `processar_pedidos`
(src/main.py lines 72-74): `len(fila_fretes[fila_fretes['Status'] ==
'URGENTE'])`.  This is the sole signal handed to the notifier. -/
def num_urgentes (fila : List FilaFrete) : Nat :=
  (fila.filter (fun e => e.status = "URGENTE")).length

/-- The dictionary returned by `gerar_resumo_executivo` (lines 99-127 of
the source).  `data_processamento` is `datetime.now().strftime(DATA_FORMATO)`
with `DATA_FORMATO = "%d/%m/%Y"`: the formatted string is a function of the
calendar day alone, so the day number is kept.  `valor_medio_pedido` is a
pandas `.mean()`, which is `NaN` (here `none`) on an empty frame;
`data_primeira_entrega`/`data_ultima_entrega` are `.min()`/`.max()` of the
datetime column, `NaT` (here `none`) on an empty frame. -/
structure Resumo where
  data_processamento : Int
  total_pedidos : Nat
  total_clientes : Nat
  quantidade_total : ℚ
  valor_total : ℚ
  valor_medio_pedido : Option ℚ
  data_primeira_entrega : Option Int
  data_ultima_entrega : Option Int
deriving DecidableEq, Repr

/-- Embedding of `ProcessadorPedidos.gerar_resumo_executivo` (lines 99-127
of src/core/processador_pedidos.py).  `hoje` is the ambient clock reading
`datetime.now()` of line 110 (the method takes no such parameter).  The
processor state is returned unchanged: the method only reads `self.df`. -/
def gerar_resumo_executivo (s : ProcessadorPedidos) (hoje : Int) :
    ProcessadorPedidos × Resumo :=
  let rows := s.df.rows
  (s,
    { data_processamento := hoje
      total_pedidos := rows.length
      total_clientes := ((rows.map (fun p => p.cliente)).dedup).length
      quantidade_total := (rows.map (fun p => p.qtd)).sum
      valor_total := (rows.map (fun p => p.qtd * p.preco)).sum
      valor_medio_pedido :=
        if rows.length = 0 then none
        else some ((rows.map (fun p => p.qtd * p.preco)).sum / rows.length)
      data_primeira_entrega := (rows.map (fun p => p.entreg)).min?
      data_ultima_entrega := (rows.map (fun p => p.entreg)).max? })

/-- A one-row dataset used to instantiate several theorems: order 1 of
customer 1, quantity 2, unit price 100, delivery on day 10. -/
def pedidoA : Pedido :=
  { num := 1, cliente := 1, qtd := 2, preco := 100, entreg := 10 }

/-- Processor freshly constructed on the one-row dataset (`total_item` is
absent, as after `__init__`). -/
def exS : ProcessadorPedidos :=
  { df := { rows := [pedidoA], total_item := none } }

/-- Same rows as `exS` but with a `Total_Item` column already present. -/
def exS' : ProcessadorPedidos :=
  { df := { rows := [pedidoA], total_item := some [200] } }

/-- Processor holding an empty dataset. -/
def exEmpty : ProcessadorPedidos :=
  { df := { rows := [], total_item := none } }

/-- Two-row dataset for claim C3: customer 2 appears first (row P1),
customer 1 second (row P2); both rows are worth 1 * 50 = 50, so the two
per-customer totals tie. -/
def exC3 : ProcessadorPedidos :=
  { df := { rows := [⟨1, 2, 1, 50, 10⟩, ⟨2, 1, 1, 50, 12⟩],
            total_item := none } }

theorem criar_fila_fretes_fst (s : ProcessadorPedidos) (dias hoje : Int) :
    (criar_fila_fretes s dias hoje).1 = s :=
  rfl

theorem criar_fila_fretes_length (s : ProcessadorPedidos) (dias hoje : Int) :
    (criar_fila_fretes s dias hoje).2.length = s.df.rows.length := by
  simp [criar_fila_fretes, List.enum_length, sort_values_length, filaBase]

/-- Every freight row carries `Data_Agendamento_Frete = C6_ENTREG - dias`
and the status the line-79 lambda computes from that dispatch date and the
clock reading. -/
theorem criar_fila_fretes_fields (s : ProcessadorPedidos) (dias hoje : Int) :
    ∀ e ∈ (criar_fila_fretes s dias hoje).2,
      e.data_agendamento = e.entreg - dias ∧
        e.status = (if e.data_agendamento ≤ hoje then "URGENTE" else "AGENDADO") := by
  intro e he
  simp only [criar_fila_fretes, List.mem_map] at he
  obtain ⟨⟨i, x⟩, hx, rfl⟩ := he
  have hmem : x ∈ sort_values (fun x => x.2.1) (filaBase s.df.rows dias hoje) := by
    have := List.mem_enum hx
    rw [this.2]
    exact List.getElem_mem _
  rw [mem_sort_values] at hmem
  simp only [filaBase, List.mem_map] at hmem
  obtain ⟨p, _, rfl⟩ := hmem
  exact ⟨rfl, rfl⟩

/-- C8: for every dataset, the Summary's record count equals the dataset's
length, its total quantity equals the sum of the per-record quantities,
and its total monetary value equals the sum over records of quantity times
unit price (lines 111-114 of the source). -/
theorem C8_resumo_totais (s : ProcessadorPedidos) (hoje : Int) :
    (gerar_resumo_executivo s hoje).2.total_pedidos = s.df.rows.length ∧
      (gerar_resumo_executivo s hoje).2.quantidade_total
        = (s.df.rows.map (fun p => p.qtd)).sum ∧
      (gerar_resumo_executivo s hoje).2.valor_total
        = (s.df.rows.map (fun p => p.qtd * p.preco)).sum :=
  ⟨rfl, rfl, rfl⟩

/-- C9 counterexample: the Aggregator is not side-effect free on the
processor's Dataset.  On the freshly constructed one-row processor `exS`
(no `Total_Item` column), one call to `calcular_total_por_cliente` leaves
the processor in a state whose DataFrame has gained the `Total_Item`
column (line 38 of the source: `self.df['Total_Item'] = self.df['Qtd'] *
self.df['Preço']`), so the Dataset held by the processor does NOT keep the
same columns across the call, refuting the claim as stated. -/
theorem C9_counterexample :
    (calcular_total_por_cliente exS).1 ≠ exS ∧
      exS.df.total_item = none ∧
      (calcular_total_por_cliente exS).1.df.total_item = some [200] := by
  refine ⟨?_, rfl, ?_⟩
  · intro h
    have h' := congrArg (fun s => s.df.total_item) h
    simp [calcular_total_por_cliente, exS] at h'
  · show some [pedidoA.qtd * pedidoA.preco] = some [200]
    norm_num [pedidoA]

/-- C9 amended: `criar_fila_fretes` and `gerar_resumo_executivo` leave the
processor state unchanged and `__init__` stores (a copy of) the caller's
DataFrame unmodified, but `calcular_total_por_cliente` mutates the
processor's DataFrame by writing the `Total_Item` column; the rows
themselves (records, order) stay unchanged. -/
theorem C9_amended_frame (s : ProcessadorPedidos) (dias hoje : Int)
    (df : DataFrame) :
    (ProcessadorPedidos.init df).df = df ∧
      (criar_fila_fretes s dias hoje).1 = s ∧
      (gerar_resumo_executivo s hoje).1 = s ∧
      (calcular_total_por_cliente s).1.df.rows = s.df.rows ∧
      (calcular_total_por_cliente s).1.df.total_item
        = some (s.df.rows.map (fun p => p.qtd * p.preco)) :=
  ⟨rfl, rfl, rfl, rfl, rfl⟩

/-- C7: on an empty dataset none of the three derivations fails: the
Aggregator returns an empty frame, the Dispatch Scheduler an empty queue,
and the Summarizer a Resumo with zero counts and sums, a no-data mean
(pandas `NaN`, modelled `none`) and no-data min/max delivery dates (pandas
`NaT`, modelled `none`). -/
theorem C7_empty_dataset (s : ProcessadorPedidos) (dias hoje : Int)
    (h : s.df.rows = []) :
    (calcular_total_por_cliente s).2 = [] ∧
      (criar_fila_fretes s dias hoje).2 = [] ∧
      (gerar_resumo_executivo s hoje).2 =
        { data_processamento := hoje
          total_pedidos := 0
          total_clientes := 0
          quantidade_total := 0
          valor_total := 0
          valor_medio_pedido := none
          data_primeira_entrega := none
          data_ultima_entrega := none } := by
  refine ⟨?_, ?_, ?_⟩ <;>
    simp [calcular_total_por_cliente, criar_fila_fretes, gerar_resumo_executivo,
      groupKeys, filaBase, sort_values, sort_values_desc, h]

/-- Witness for C7 at the concrete empty processor. -/
theorem C7_empty_dataset_witness :
    (calcular_total_por_cliente exEmpty).2 = [] ∧
      (criar_fila_fretes exEmpty DIAS_ANTECEDENCIA_FRETE 0).2 = [] ∧
      (gerar_resumo_executivo exEmpty 0).2 =
        { data_processamento := 0
          total_pedidos := 0
          total_clientes := 0
          quantidade_total := 0
          valor_total := 0
          valor_medio_pedido := none
          data_primeira_entrega := none
          data_ultima_entrega := none } :=
  C7_empty_dataset exEmpty DIAS_ANTECEDENCIA_FRETE 0 rfl

/-- C6 counterexample: a negative lead time is NOT rejected.  Neither
src/config.py nor `criar_fila_fretes` validates `DIAS_ANTECEDENCIA_FRETE`:
with lead time -1 and clock reading day 0, the one-row processor `exS`
yields a normal one-entry freight queue (no error path exists in the
code), whose dispatch date 11 lies AFTER the delivery date 10 — the
inverted scheduling semantics the claim says the code fails fast on. -/
theorem C6_counterexample :
    (criar_fila_fretes exS (-1) 0).2.length = 1 ∧
      (criar_fila_fretes exS (-1) 0).2.map (fun e => e.data_agendamento)
        = [11] ∧
      (criar_fila_fretes exS (-1) 0).2.map (fun e => e.status)
        = ["AGENDADO"] :=
  ⟨rfl, rfl, rfl⟩

/-- C6 amended: a negative `lead_time_days` is accepted without any error:
the scheduler still produces one freight entry per record, with
`dispatch_date = delivery_date - lead_time_days`, which then lies strictly
after the delivery date (inverted scheduling semantics, silently). -/
theorem C6_amended_negative_lead (s : ProcessadorPedidos) (dias hoje : Int)
    (hneg : dias < 0) :
    (criar_fila_fretes s dias hoje).2.length = s.df.rows.length ∧
      ∀ e ∈ (criar_fila_fretes s dias hoje).2,
        e.data_agendamento = e.entreg - dias ∧ e.entreg < e.data_agendamento := by
  refine ⟨criar_fila_fretes_length s dias hoje, fun e he => ?_⟩
  obtain ⟨h1, _⟩ := criar_fila_fretes_fields s dias hoje e he
  exact ⟨h1, by omega⟩

/-- Witness for C6 amended at lead time -1. -/
theorem C6_amended_negative_lead_witness :
    (criar_fila_fretes exS (-1) 0).2.length = exS.df.rows.length ∧
      ∀ e ∈ (criar_fila_fretes exS (-1) 0).2,
        e.data_agendamento = e.entreg - (-1) ∧ e.entreg < e.data_agendamento :=
  C6_amended_negative_lead exS (-1) 0 (by decide)

/-- C5 counterexample: `now` is NOT an explicit parameter of the Python
methods — `criar_fila_fretes` reads `datetime.now()` at line 78 and
`gerar_resumo_executivo` at line 110 — so the embedding threads the clock
reading as an extra argument.  Two invocations on the SAME one-row dataset
with different ambient clock readings (day 7 vs day 6, dispatch date 7)
return different freight queues (status flips between URGENTE and
AGENDADO) and different summaries (the generation date changes): the
outputs depend on the internal clock read, which the caller cannot fix,
refuting the claim that `now` is supplied as an explicit parameter and
never read from the system clock inside the function. -/
theorem C5_counterexample :
    (criar_fila_fretes exS DIAS_ANTECEDENCIA_FRETE 7).2.map (fun e => e.status)
        = ["URGENTE"] ∧
      (criar_fila_fretes exS DIAS_ANTECEDENCIA_FRETE 6).2.map (fun e => e.status)
        = ["AGENDADO"] ∧
      (criar_fila_fretes exS DIAS_ANTECEDENCIA_FRETE 7).2
        ≠ (criar_fila_fretes exS DIAS_ANTECEDENCIA_FRETE 6).2 ∧
      (gerar_resumo_executivo exS 7).2.data_processamento = 7 ∧
      (gerar_resumo_executivo exS 6).2.data_processamento = 6 ∧
      (gerar_resumo_executivo exS 7).2 ≠ (gerar_resumo_executivo exS 6).2 := by
  have h7 : (criar_fila_fretes exS DIAS_ANTECEDENCIA_FRETE 7).2.map
      (fun e => e.status) = ["URGENTE"] := rfl
  have h6 : (criar_fila_fretes exS DIAS_ANTECEDENCIA_FRETE 6).2.map
      (fun e => e.status) = ["AGENDADO"] := rfl
  refine ⟨h7, h6, ?_, rfl, rfl, ?_⟩
  · intro h
    rw [h, h6] at h7
    exact absurd h7 (by decide)
  · intro h
    have h' := congrArg (fun r => r.data_processamento) h
    exact absurd h' (by decide)

/-- C5 amended: each derivation is a deterministic pure function of the
dataset rows and the ambient clock reading taken at call time (rather than
of an injectable `now` parameter): two processor states holding the same
rows — even if one already carries the `Total_Item` column — produce
identical Aggregator, Dispatch Scheduler and Summarizer outputs for equal
clock readings, so re-running with the clock fixed is bit-identical. -/
theorem C5_amended_deterministic (s1 s2 : ProcessadorPedidos)
    (dias hoje : Int) (h : s1.df.rows = s2.df.rows) :
    (calcular_total_por_cliente s1).2 = (calcular_total_por_cliente s2).2 ∧
      (criar_fila_fretes s1 dias hoje).2 = (criar_fila_fretes s2 dias hoje).2 ∧
      (gerar_resumo_executivo s1 hoje).2 = (gerar_resumo_executivo s2 hoje).2 := by
  refine ⟨?_, ?_, ?_⟩ <;>
    simp only [calcular_total_por_cliente, criar_fila_fretes,
      gerar_resumo_executivo, filaBase, groupKeys, h]

/-- Witness for C5 amended: same rows, one state with the `Total_Item`
column already present, equal clock readings. -/
theorem C5_amended_deterministic_witness :
    (calcular_total_por_cliente exS).2 = (calcular_total_por_cliente exS').2 ∧
      (criar_fila_fretes exS 3 7).2 = (criar_fila_fretes exS' 3 7).2 ∧
      (gerar_resumo_executivo exS 7).2 = (gerar_resumo_executivo exS' 7).2 :=
  C5_amended_deterministic exS exS' 3 7 rfl

/-- C1: for every dataset record, lead time and clock reading, the freight
entry built for the record satisfies `dispatch_date = delivery_date -
lead_time_days` and is URGENTE exactly when `dispatch_date.date() <=
now.date()` — the line-79 lambda `'URGENTE' if x.date() <= hoje.date()
else 'AGENDADO'` — with the boundary `dispatch_date.date() == now.date()`
classified URGENTE (the comparison is `<=`). -/
theorem C1_status_urgente_iff (s : ProcessadorPedidos) (dias hoje : Int)
    (e : FilaFrete) (he : e ∈ (criar_fila_fretes s dias hoje).2) :
    e.data_agendamento = e.entreg - dias ∧
      (e.status = "URGENTE" ↔ e.data_agendamento ≤ hoje) := by
  obtain ⟨h1, h2⟩ := criar_fila_fretes_fields s dias hoje e he
  refine ⟨h1, ?_⟩
  by_cases hle : e.data_agendamento ≤ hoje
  · simp [h2, hle]
  · simp only [h2, if_neg hle]
    exact ⟨fun hc => absurd hc (by decide), fun hc => absurd hc hle⟩

/-- A freight entry of `exS` at lead 3, clock day 7: the dispatch date 7
equals the clock date, the boundary case, classified URGENTE. -/
def exE : FilaFrete :=
  { seq_frete := 1, num := 1, cliente := 1, qtd := 2, entreg := 10,
    data_agendamento := 7, status := "URGENTE" }

/-- Witness for C1 at the boundary `dispatch_date.date() == now.date()`. -/
theorem C1_status_urgente_iff_witness :
    exE.data_agendamento = exE.entreg - DIAS_ANTECEDENCIA_FRETE ∧
      (exE.status = "URGENTE" ↔ exE.data_agendamento ≤ 7) :=
  C1_status_urgente_iff exS DIAS_ANTECEDENCIA_FRETE 7 exE (List.Mem.head _)

theorem groupKeys_nodup (rows : List Pedido) : (groupKeys rows).Nodup :=
  (sort_values_perm id _).nodup_iff.mpr (List.nodup_dedup _)

theorem mem_groupKeys {rows : List Pedido} {c : Nat} :
    c ∈ groupKeys rows ↔ c ∈ rows.map (fun p => p.cliente) := by
  unfold groupKeys
  rw [mem_sort_values, List.mem_dedup]

theorem sum_if_eq_zero {c : Nat} {keys : List Nat} (h : c ∉ keys) :
    (keys.map (fun k => if c = k then (1 : Nat) else 0)).sum = 0 := by
  induction keys with
  | nil => rfl
  | cons k ks ih =>
      have hck : c ≠ k := fun he => h (he ▸ List.mem_cons_self k ks)
      simp only [List.map_cons, List.sum_cons, if_neg hck,
        ih (fun hm => h (List.mem_cons_of_mem k hm))]

theorem sum_if_eq_one {c : Nat} {keys : List Nat} (hnd : keys.Nodup)
    (hmem : c ∈ keys) :
    (keys.map (fun k => if c = k then (1 : Nat) else 0)).sum = 1 := by
  induction keys with
  | nil => cases hmem
  | cons k ks ih =>
      simp only [List.map_cons, List.sum_cons]
      rcases List.mem_cons.mp hmem with h | h
      · subst h
        rw [if_pos rfl, sum_if_eq_zero (List.nodup_cons.mp hnd).1]
      · have hck : c ≠ k := fun he => (List.nodup_cons.mp hnd).1 (he ▸ h)
        rw [if_neg hck, ih (List.nodup_cons.mp hnd).2 h]

theorem sum_map_add_nat (keys : List Nat) (f g : Nat → Nat) :
    (keys.map (fun k => f k + g k)).sum = (keys.map f).sum + (keys.map g).sum := by
  induction keys with
  | nil => rfl
  | cons k ks ih =>
      simp only [List.map_cons, List.sum_cons, ih]
      omega

/-- The group sizes over any duplicate-free covering key list add up to
the number of rows: every row is counted in exactly one group. -/
theorem sum_group_counts (keys : List Nat) (rows : List Pedido)
    (hnd : keys.Nodup) (hcov : ∀ p ∈ rows, p.cliente ∈ keys) :
    (keys.map (fun k => (rows.filter (fun p => p.cliente = k)).length)).sum
      = rows.length := by
  induction rows with
  | nil => simp
  | cons p rest ih =>
      have hrest : ∀ q ∈ rest, q.cliente ∈ keys :=
        fun q hq => hcov q (List.mem_cons_of_mem p hq)
      have hp : p.cliente ∈ keys := hcov p (List.mem_cons_self p rest)
      have hsplit : (keys.map (fun k =>
          ((p :: rest).filter (fun q => q.cliente = k)).length))
          = keys.map (fun k => (if p.cliente = k then 1 else 0)
              + (rest.filter (fun q => q.cliente = k)).length) := by
        refine List.map_congr_left (fun k _ => ?_)
        by_cases h : p.cliente = k
        · simp [List.filter_cons, h]
          omega
        · simp [List.filter_cons, h]
      rw [hsplit, sum_map_add_nat, sum_if_eq_one hnd hp, ih hrest]
      simp [Nat.add_comm]

/-- C4: for every dataset, the `Num_Pedidos` order counts of the Customer
Aggregates add up to the dataset's record count: grouping partitions the
rows (one group per distinct `C6_CLIENTE`) and the descending sort only
permutes the aggregate rows. -/
theorem C4_sum_num_pedidos (s : ProcessadorPedidos) :
    ((calcular_total_por_cliente s).2.map (fun t => t.num_pedidos)).sum
      = s.df.rows.length := by
  have hperm : List.Perm
      ((calcular_total_por_cliente s).2.map (fun t => t.num_pedidos))
      (((groupKeys s.df.rows).map (grupoCliente s.df.rows)).map
        (fun t => t.num_pedidos)) := by
    simp only [calcular_total_por_cliente]
    exact (sort_values_desc_perm _ _).map _
  rw [hperm.sum_eq, List.map_map]
  have hpt : (groupKeys s.df.rows).map
      ((fun t => t.num_pedidos) ∘ grupoCliente s.df.rows)
      = (groupKeys s.df.rows).map (fun k =>
          (s.df.rows.filter (fun p => p.cliente = k)).length) := rfl
  rw [hpt]
  exact sum_group_counts _ _ (groupKeys_nodup _)
    (fun p hp => mem_groupKeys.mpr (List.mem_map_of_mem _ hp))

/-- C3 counterexample: ties do NOT retain the grouping's first-seen order.
In `exC3` customer 2 appears first and customer 1 second, with equal
totals (50 each); but pandas `groupby` (with its default `sort=True`)
emits the groups in ascending key order, so the Aggregator returns
customer 1 before customer 2 — not the first-seen order 2, 1 the claim
promises.  (On two tied rows the sort itself keeps the groupby order, so
the reordering is entirely the groupby's.) -/
theorem C3_counterexample :
    exC3.df.rows.map (fun p => p.cliente) = [2, 1] ∧
      (calcular_total_por_cliente exC3).2.map (fun t => t.cliente) = [1, 2] ∧
      (calcular_total_por_cliente exC3).2.map (fun t => t.total_valor)
        = [50, 50] := by
  have hkeys : groupKeys exC3.df.rows = [1, 2] := by decide
  refine ⟨rfl, ?_, ?_⟩ <;>
  · simp only [calcular_total_por_cliente, hkeys]
    norm_num [grupoCliente, sort_values_desc, sort_values, insertByKey, exC3]

/-- C3 amended: the Aggregator's output is sorted non-increasing by the
summed monetary total.  The order among equal totals is NOT the dataset's
first-seen order (refuted by the counterexample above: `groupby` already
emits groups in ascending key order); no particular tie order is asserted
here, since the line-51 sort's tie behaviour beyond the small-array path
is not guaranteed by pandas. -/
theorem C3_amended_sorted (s : ProcessadorPedidos) :
    List.Chain' (fun a b => b.total_valor ≤ a.total_valor)
      ((calcular_total_por_cliente s).2) := by
  simp only [calcular_total_por_cliente]
  exact sort_values_desc_chain' (fun t : TotaisCliente => t.total_valor) _

/-- Rewrites a pre-sort freight row from one clock reading to another:
keeps the record and dispatch date, recomputes the status.  Relates two
runs of the scheduler whose internal `datetime.now()` reads differ. -/
def statusMap (hoje : Int) (x : Pedido × Int × String) : Pedido × Int × String :=
  (x.1, x.2.1, if x.2.1 ≤ hoje then "URGENTE" else "AGENDADO")

theorem filaBase_statusMap (rows : List Pedido) (dias t1 t2 : Int) :
    filaBase rows dias t2 = (filaBase rows dias t1).map (statusMap t2) := by
  simp [filaBase, statusMap, List.map_map, Function.comp]

theorem sort_filaBase_statusMap (s : ProcessadorPedidos) (dias t1 t2 : Int) :
    sort_values (fun x => x.2.1) (filaBase s.df.rows dias t2)
      = (sort_values (fun x => x.2.1) (filaBase s.df.rows dias t1)).map
          (statusMap t2) := by
  rw [filaBase_statusMap s.df.rows dias t1 t2]
  exact (sort_values_map _ _ (statusMap t2) (fun x => rfl) _).symm

theorem mem_sort_filaBase_status (s : ProcessadorPedidos) (dias hoje : Int)
    {x : Pedido × Int × String}
    (hx : x ∈ sort_values (fun y => y.2.1) (filaBase s.df.rows dias hoje)) :
    x.2.2 = (if x.2.1 ≤ hoje then "URGENTE" else "AGENDADO") := by
  rw [mem_sort_values] at hx
  simp only [filaBase, List.mem_map] at hx
  obtain ⟨p, _, rfl⟩ := hx
  rfl

/-- The urgent count handed to the notifier equals the number of records
whose dispatch date has arrived: sorting and sequence numbering do not
change it. -/
theorem num_urgentes_countP (s : ProcessadorPedidos) (dias hoje : Int) :
    num_urgentes (criar_fila_fretes s dias hoje).2
      = s.df.rows.countP (fun p => decide (p.entreg - dias ≤ hoje)) := by
  simp only [num_urgentes, criar_fila_fretes, ← List.countP_eq_length_filter,
    List.countP_map]
  have h1 : List.countP
      ((fun e : FilaFrete => decide (e.status = "URGENTE")) ∘ mkFrete)
      (sort_values (fun x => x.2.1) (filaBase s.df.rows dias hoje)).enum
      = List.countP
          (fun x : Pedido × Int × String => decide (x.2.2 = "URGENTE"))
          (sort_values (fun x => x.2.1) (filaBase s.df.rows dias hoje)) := by
    conv_rhs => rw [← List.enum_map_snd
      (sort_values (fun x => x.2.1) (filaBase s.df.rows dias hoje))]
    rw [List.countP_map]
    rfl
  rw [h1, (sort_values_perm _ _).countP_eq, filaBase, List.countP_map]
  refine List.countP_congr (fun p _ => ?_)
  by_cases h : p.entreg - dias ≤ hoje <;> simp [Function.comp, h]

/-- C10: urgency classification is monotone in the reference date.  For
the same dataset and lead time, if the i-th freight entry is URGENTE at
clock reading `t1` then the i-th entry at any later reading `t2` is also
URGENTE (the sort key `Data_Agendamento_Frete` does not depend on the
clock, so the two runs list the same records in the same order), and the
urgent-entry count reported to the notifier never decreases as the
reference date advances. -/
theorem C10_urgencia_monotona (s : ProcessadorPedidos) (dias t1 t2 : Int)
    (h : t1 ≤ t2) :
    (∀ (i : Nat) (e1 e2 : FilaFrete),
        ((criar_fila_fretes s dias t1).2)[i]? = some e1 →
        ((criar_fila_fretes s dias t2).2)[i]? = some e2 →
        e1.status = "URGENTE" → e2.status = "URGENTE") ∧
      num_urgentes (criar_fila_fretes s dias t1).2
        ≤ num_urgentes (criar_fila_fretes s dias t2).2 := by
  constructor
  · intro i e1 e2 he1 he2 hu
    simp only [criar_fila_fretes] at he1 he2
    rw [sort_filaBase_statusMap s dias t1 t2] at he2
    rw [List.getElem?_map, List.getElem?_enum] at he1
    rw [List.getElem?_map, List.getElem?_enum, List.getElem?_map] at he2
    cases hx : (sort_values (fun x => x.2.1) (filaBase s.df.rows dias t1))[i]? with
    | none =>
        rw [hx] at he1
        simp at he1
    | some x =>
        rw [hx] at he1 he2
        simp only [Option.map_some', Option.some.injEq] at he1 he2
        subst he1
        subst he2
        have hmem : x ∈ sort_values (fun x => x.2.1) (filaBase s.df.rows dias t1) := by
          obtain ⟨hlt, hgx⟩ := List.getElem?_eq_some.mp hx
          exact hgx ▸ List.getElem_mem hlt
        have hst := mem_sort_filaBase_status s dias t1 hmem
        have hle : x.2.1 ≤ t1 := by
          by_contra hgt
          rw [show (mkFrete (i, x)).status = x.2.2 from rfl, hst,
            if_neg hgt] at hu
          exact absurd hu (by decide)
        show (mkFrete (i, statusMap t2 x)).status = "URGENTE"
        rw [show (mkFrete (i, statusMap t2 x)).status
          = (if x.2.1 ≤ t2 then "URGENTE" else "AGENDADO") from rfl]
        rw [if_pos (le_trans hle h)]
  · rw [num_urgentes_countP, num_urgentes_countP]
    refine List.countP_mono_left (fun p _ hp => ?_)
    simp only [decide_eq_true_eq] at hp ⊢
    omega

/-- Witness for C10: on the one-row dataset the urgent count at clock day
6 is bounded by the count at clock day 7. -/
theorem C10_urgencia_monotona_witness :
    num_urgentes (criar_fila_fretes exS DIAS_ANTECEDENCIA_FRETE 6).2
      ≤ num_urgentes (criar_fila_fretes exS DIAS_ANTECEDENCIA_FRETE 7).2 :=
  (C10_urgencia_monotona exS DIAS_ANTECEDENCIA_FRETE 6 7 (by decide)).2
